import Mathlib

/-!
Shallow embedding of `src/procr.py`, a single-shot CLI that prints either a
system-information summary or a process list.

The psutil library is the boundary: its point-in-time answers are collected in
a `Provider` record, and every observable step of a run (a line printed to
stdout, the usage message argparse emits on a bad flag, a provider query) is
recorded in an ordered event trace together with the process exit status.
Python's `print(a, b)` joins its arguments with a single space; the embedding
keeps that separator space explicit (`lit ++ " " ++ value`).
-/

namespace Procr

/-- Host identity flags as the metrics provider exposes them
(psutil.LINUX, psutil.WINDOWS, psutil.MACOS, ...). -/
structure HostFlags where
  linux : Bool
  windows : Bool
  macos : Bool
  freebsd : Bool
  netbsd : Bool
  openbsd : Bool
  bsd : Bool
  sunos : Bool
  aix : Bool
deriving Repr, DecidableEq

/-- The ordered dictionary `avail_sys_types` built inside `which_os`
(src/procr.py lines 117-129); Python dicts preserve insertion order. -/
def avail_sys_types (h : HostFlags) : List (String × Bool) :=
  [("linux", h.linux), ("windows", h.windows), ("macos", h.macos),
   ("freebsd", h.freebsd), ("netbsd", h.netbsd), ("openbsd", h.openbsd),
   ("bsd", h.bsd), ("sunos", h.sunos), ("aix", h.aix)]

/-- Body of the `for key, val in avail_sys_types.items()` loop of `which_os`
(lines 131-136).  In the source the `return None` statement is indented inside
the loop body, at the same level as the `if`: the first iteration therefore
always returns, either that entry's key (when its flag is true) or `None`.
Entries after the first are never examined. -/
def which_os_loop : List (String × Bool) → Option String
  | [] => none
  | (key, val) :: _ => if val then some key else none

/-- `which_os` (lines 111-136): OS detection over the host flags. -/
def which_os (h : HostFlags) : Option String :=
  which_os_loop (avail_sys_types h)

/-- Result of `psutil.disk_usage(path)`: the fields the program reads. -/
structure DiskUsage where
  total : Nat
  free : Nat
deriving Repr, DecidableEq

/-- Result of `psutil.virtual_memory()`: the fields the program reads. -/
structure VirtualMemory where
  total : Nat
  available : Nat
deriving Repr, DecidableEq

/-- One entry of `psutil.process_iter(['pid', 'name', 'username'])`:
the `.info` dict carries exactly these three attributes. -/
structure ProcInfo where
  pid : Nat
  name : String
  username : String
deriving Repr, DecidableEq

/-- The psutil boundary: the point-in-time answers the provider gives on this
invocation.  `cpu_percent` is the decimal rendering of the instantaneous usage
sample; the program never computes with that number, it only passes it to
`print`, so it is modelled as the text `str` produces for it. -/
structure Provider where
  hostFlags : HostFlags
  cpu_count : Nat
  cpu_percent : String
  virtual_memory : VirtualMemory
  disk_usage : String → DiskUsage
  process_iter : List ProcInfo

/-- The provider queries the program can perform. -/
inductive Query where
  | os_check : Query
  | cpu_count : Query
  | cpu_percent : Query
  | virtual_memory : Query
  | disk_usage : String → Query
  | process_iter : Query
deriving Repr, DecidableEq

/-- One observable step of a run: a line printed to stdout, the usage message
argparse prints when parsing fails, or a provider query. -/
inductive Event where
  | out : String → Event
  | usage : Event
  | query : Query → Event
deriving Repr, DecidableEq

/-- `get_num_cpus` (lines 181-187): `psutil.cpu_count()`. -/
def get_num_cpus (P : Provider) : List Event × Nat :=
  ([Event.query Query.cpu_count], P.cpu_count)

/-- `get_cpu_usage` (lines 190-195): `psutil.cpu_percent(interval=None)`. -/
def get_cpu_usage (P : Provider) : List Event × String :=
  ([Event.query Query.cpu_percent], P.cpu_percent)

/-- `get_total_system_memory` (lines 152-158): `psutil.virtual_memory().total`. -/
def get_total_system_memory (P : Provider) : List Event × Nat :=
  ([Event.query Query.virtual_memory], P.virtual_memory.total)

/-- `get_available_system_memory` (lines 161-167):
`psutil.virtual_memory().available`. -/
def get_available_system_memory (P : Provider) : List Event × Nat :=
  ([Event.query Query.virtual_memory], P.virtual_memory.available)

/-- `get_system_storage_info` (lines 139-149): `psutil.disk_usage("C:\\")`
when `os_type == "windows"`, else `psutil.disk_usage("/")`. -/
def get_system_storage_info (P : Provider) (os_type : String) : List Event × DiskUsage :=
  if os_type = "windows" then
    ([Event.query (Query.disk_usage "C:\\")], P.disk_usage "C:\\")
  else
    ([Event.query (Query.disk_usage "/")], P.disk_usage "/")

/-- `get_proc_list` (lines 170-178): one record per process from
`psutil.process_iter(['pid', 'name', 'username'])`. -/
def get_proc_list (P : Provider) : List Event × List ProcInfo :=
  ([Event.query Query.process_iter], P.process_iter)

/-- The argparse Namespace produced by `parse_cmdline`: the single
`store_true` destination `list`. -/
structure Args where
  list : Bool
deriving Repr, DecidableEq

/-- `parse_cmdline` (lines 87-97).  The parser is configured with the single
optional `store_true` flag spelled `-l` or `--list` and no positional
arguments; per the argparse contract any other token makes `parse_args` print
a usage message and exit the process with status 2, modelled here as `none`.
The flag destination is true exactly when the flag occurs, which for this
parser is exactly when the accepted argument list is nonempty. -/
def parse_cmdline : List String → Option Args
  | [] => some { list := false }
  | tok :: rest =>
    if tok = "-l" ∨ tok = "--list" then
      (parse_cmdline rest).map fun _ => { list := true }
    else none

/-- The observable result of one invocation: the ordered trace of events and
the process exit status. -/
structure MainRun where
  events : List Event
  exit : Nat
deriving Repr, DecidableEq

/-- Stdout content of an event, if any. -/
def event_line : Event → Option String
  | Event.out s => some s
  | _ => none

/-- Provider query of an event, if any. -/
def event_query : Event → Option Query
  | Event.query q => some q
  | _ => none

/-- Lines printed to stdout during a run, in order. -/
def run_out (r : MainRun) : List String :=
  r.events.filterMap event_line

/-- Provider queries performed during a run, in order. -/
def run_queries (r : MainRun) : List Query :=
  r.events.filterMap event_query

/-- `print_output_header` (lines 100-108): the fixed four-line header. -/
def print_output_header : List Event :=
  [Event.out "--- procr program output ---",
   Event.out "----------------------------",
   Event.out "*System information follows*",
   Event.out "----------------------------"]

/-- The items of one `proc.info` dict, in the key order the attribute list
`['pid', 'name', 'username']` gives them; `print` renders the pid with `str`. -/
def proc_items (p : ProcInfo) : List (String × String) :=
  [("pid", toString p.pid), ("name", p.name), ("username", p.username)]

/-- The block `main` prints for one process (lines 57-60): a 22-dash border,
then `print(key, "    ", val)` for each item - three arguments joined by
single separator spaces - then another border. -/
def print_proc_block (p : ProcInfo) : List Event :=
  [Event.out "----------------------"]
    ++ (proc_items p).map (fun kv => Event.out (kv.1 ++ " " ++ "    " ++ " " ++ kv.2))
    ++ [Event.out "----------------------"]

/-- Lines 77-80 of `main`: the storage call is made with the literal argument
`"windows"` when the detected family equals `"windows"`, else `"other"`. -/
def main_storage_call (P : Provider) (which_op_system : String) : List Event × DiskUsage :=
  if which_op_system = "windows" then get_system_storage_info P "windows"
  else get_system_storage_info P "other"

/-- The summary block `main` prints when the list flag is absent
(lines 63-84).  Each `print(label, value)` evaluates its metric query first,
then emits the label, one separator space, and the value's rendering. -/
def summary_events (P : Provider) (which_op_system : String) : List Event :=
  [Event.out ("Operating system:         " ++ " " ++ which_op_system)]
    ++ (let r := get_num_cpus P
        r.1 ++ [Event.out ("System CPU count:         " ++ " " ++ toString r.2)])
    ++ (let r := get_cpu_usage P
        r.1 ++ [Event.out ("CPU usage percentage:     " ++ " " ++ r.2)])
    ++ (let r := get_total_system_memory P
        r.1 ++ [Event.out ("System total memory:      " ++ " " ++ toString r.2)])
    ++ (let r := get_available_system_memory P
        r.1 ++ [Event.out ("System available memory:  " ++ " " ++ toString r.2)])
    ++ (let r := main_storage_call P which_op_system
        r.1 ++ [Event.out "System storage information: ",
                Event.out ("    Total: " ++ " " ++ toString r.2.total),
                Event.out ("    Free:  " ++ " " ++ toString r.2.free)])

/-- `main` (lines 35-84) as a function of the argument vector and the
provider: parse, print the header, detect the OS (exit 1 with an error line
when detection fails), then print the process list when the flag is set and
the summary when it is not. -/
def main (argv : List String) (P : Provider) : MainRun :=
  match parse_cmdline argv with
  | none => { events := [Event.usage], exit := 2 }
  | some args =>
    let proc_list := args.list
    let header := print_output_header
    match which_os P.hostFlags with
    | none =>
      { events := header ++ [Event.query Query.os_check,
                             Event.out "ERROR! Operating system not detected!"],
        exit := 1 }
    | some which_op_system =>
      let list_events :=
        if proc_list then
          let r := get_proc_list P
          r.1 ++ (r.2.map print_proc_block).flatten
        else []
      let sum_events :=
        if proc_list then [] else summary_events P which_op_system
      { events := header ++ [Event.query Query.os_check] ++ list_events ++ sum_events,
        exit := 0 }

/-- The four header lines as stdout text. -/
def header_lines : List String :=
  ["--- procr program output ---",
   "----------------------------",
   "*System information follows*",
   "----------------------------"]

/-- Stdout text of one process block. -/
def proc_block_lines (p : ProcInfo) : List String :=
  ["----------------------",
   "pid" ++ " " ++ "    " ++ " " ++ toString p.pid,
   "name" ++ " " ++ "    " ++ " " ++ p.name,
   "username" ++ " " ++ "    " ++ " " ++ p.username,
   "----------------------"]

/-- Stdout text of the summary block. -/
def summary_lines (P : Provider) (which_op_system : String) : List String :=
  ["Operating system:         " ++ " " ++ which_op_system,
   "System CPU count:         " ++ " " ++ toString (get_num_cpus P).2,
   "CPU usage percentage:     " ++ " " ++ (get_cpu_usage P).2,
   "System total memory:      " ++ " " ++ toString (get_total_system_memory P).2,
   "System available memory:  " ++ " " ++ toString (get_available_system_memory P).2,
   "System storage information: ",
   "    Total: " ++ " " ++ toString (main_storage_call P which_op_system).2.total,
   "    Free:  " ++ " " ++ toString (main_storage_call P which_op_system).2.free]

/-- Host flags of a Linux host. -/
def linuxFlags : HostFlags :=
  ⟨true, false, false, false, false, false, false, false, false⟩

/-- Host flags with no family set: an undetectable host. -/
def noFlags : HostFlags :=
  ⟨false, false, false, false, false, false, false, false, false⟩

/-- Host flags of a Windows host. -/
def windowsFlags : HostFlags :=
  ⟨false, true, false, false, false, false, false, false, false⟩

/-- Mocked provider of end-to-end scenario 1: a Linux host with 4 CPUs,
50 percent usage, 16 GB total and 8 GB available memory, and a disk with
100 GB total and 40 GB free. -/
def scenario1 : Provider :=
  { hostFlags := linuxFlags
    cpu_count := 4
    cpu_percent := "50"
    virtual_memory := { total := 17179869184, available := 8589934592 }
    disk_usage := fun _ => { total := 107374182400, free := 42949672960 }
    process_iter := [] }

/-- Mocked provider of end-to-end scenario 2: a detectable host with two
processes. -/
def scenario2 : Provider :=
  { hostFlags := linuxFlags
    cpu_count := 1
    cpu_percent := "0.0"
    virtual_memory := { total := 2, available := 1 }
    disk_usage := fun _ => { total := 2, free := 1 }
    process_iter := [⟨1, "init", "root"⟩, ⟨42, "shell", "alice"⟩] }

/-- Mocked provider with an undetectable host, end-to-end scenario 3. -/
def undetectedProvider : Provider :=
  { hostFlags := noFlags
    cpu_count := 1
    cpu_percent := "0.0"
    virtual_memory := { total := 2, available := 1 }
    disk_usage := fun _ => { total := 2, free := 1 }
    process_iter := [] }

/-! Helper lemmas about the trace projections. -/

theorem filterMap_line_flatten (ls : List (List Event)) :
    ls.flatten.filterMap event_line = (ls.map (List.filterMap event_line)).flatten := by
  induction ls with
  | nil => rfl
  | cons a t ih => simp [List.filterMap_append, ih]

theorem line_print_proc_block (p : ProcInfo) :
    (print_proc_block p).filterMap event_line = proc_block_lines p := by
  simp [print_proc_block, proc_items, proc_block_lines, event_line]

theorem line_summary_events (P : Provider) (os : String) :
    (summary_events P os).filterMap event_line = summary_lines P os := by
  by_cases h : os = "windows" <;>
    simp [summary_events, summary_lines, get_num_cpus, get_cpu_usage,
      get_total_system_memory, get_available_system_memory, main_storage_call,
      get_system_storage_info, event_line, List.filterMap_append, h]

theorem map_line_blocks (ps : List ProcInfo) :
    ps.map (List.filterMap event_line ∘ print_proc_block) = ps.map proc_block_lines := by
  induction ps with
  | nil => rfl
  | cons p t ih => simp [ih, line_print_proc_block]

theorem query_flatten_blocks (ps : List ProcInfo) :
    (ps.map print_proc_block).flatten.filterMap event_query = [] := by
  induction ps with
  | nil => rfl
  | cons p t ih =>
    simp [print_proc_block, proc_items, event_query, List.filterMap_append, ih]

/-! Theorems settling the claims. -/

/-- C1: the claim says `which_os` scans the whole ordered family list and
returns the first family whose flag is true, returning none only when no
family matches.  On a host whose only true flag is windows, the first true
entry of the ordered list is the windows entry, yet `which_os` returns none:
the early return inside the loop body stops the scan after the first entry. -/
theorem which_os_misses_windows :
    which_os windowsFlags = none
    ∧ (avail_sys_types windowsFlags).find? (fun kv => kv.2) = some ("windows", true) := by
  decide

/-- C2: when the arguments parse and no OS family is detected, the run prints
exactly the header followed by the error line and exits with status 1; no
summary line and no process-record line is printed (the stdout is exactly
those five lines, and no metric or process query was even performed). -/
theorem os_not_detected_aborts (argv : List String) (P : Provider) (args : Args)
    (hp : parse_cmdline argv = some args) (ho : which_os P.hostFlags = none) :
    run_out (main argv P) = header_lines ++ ["ERROR! Operating system not detected!"]
    ∧ (main argv P).exit = 1
    ∧ run_queries (main argv P) = [Query.os_check] := by
  have hm : main argv P =
      { events := print_output_header ++ [Event.query Query.os_check,
          Event.out "ERROR! Operating system not detected!"],
        exit := 1 } := by
    simp only [main, hp, ho]
  rw [hm]
  exact ⟨by decide, rfl, by decide⟩

/-- C2 witness: scenario 3 at a concrete undetectable provider. -/
theorem os_not_detected_aborts_witness :
    run_out (main [] undetectedProvider)
      = header_lines ++ ["ERROR! Operating system not detected!"] :=
  (os_not_detected_aborts [] undetectedProvider ⟨false⟩ (by decide) (by decide)).1

/-- Stdout of a run that reaches list mode: the header followed by exactly the
process blocks. -/
theorem run_out_list_mode (argv : List String) (P : Provider) (args : Args)
    (os : String) (hp : parse_cmdline argv = some args) (hl : args.list = true)
    (ho : which_os P.hostFlags = some os) :
    run_out (main argv P) = header_lines ++ (P.process_iter.map proc_block_lines).flatten := by
  simp [main, hp, ho, hl, run_out, List.filterMap_append, print_output_header,
    header_lines, event_line, get_proc_list, filterMap_line_flatten,
    map_line_blocks, line_print_proc_block]

/-- Stdout of a run that reaches summary mode: the header followed by exactly
the summary block. -/
theorem run_out_summary_mode (argv : List String) (P : Provider) (args : Args)
    (os : String) (hp : parse_cmdline argv = some args) (hl : args.list = false)
    (ho : which_os P.hostFlags = some os) :
    run_out (main argv P) = header_lines ++ summary_lines P os := by
  simp [main, hp, ho, hl, run_out, List.filterMap_append, print_output_header,
    header_lines, event_line, line_summary_events]

/-- C3: after parsing and OS detection the two output modes are mutually
exclusive: with the list flag the stdout is the header followed only by the
process blocks, without it the stdout is the header followed only by the
summary block; the header appears in both modes. -/
theorem modes_mutually_exclusive (argv : List String) (P : Provider) (args : Args)
    (os : String) (hp : parse_cmdline argv = some args)
    (ho : which_os P.hostFlags = some os) :
    (args.list = true →
      run_out (main argv P) = header_lines ++ (P.process_iter.map proc_block_lines).flatten)
    ∧ (args.list = false →
      run_out (main argv P) = header_lines ++ summary_lines P os) :=
  ⟨fun hl => run_out_list_mode argv P args os hp hl ho,
   fun hl => run_out_summary_mode argv P args os hp hl ho⟩

/-- C3 witness: summary mode at the concrete scenario 1 provider. -/
theorem modes_mutually_exclusive_witness :
    run_out (main [] scenario1) = header_lines ++ summary_lines scenario1 "linux" :=
  (modes_mutually_exclusive [] scenario1 ⟨false⟩ "linux" (by decide) (by decide)).2 rfl
/-- C4: for every detected family the storage call of `main` queries the
provider at path C:\ exactly when the family is windows, and at / for every
other family. -/
theorem disk_path_selection (P : Provider) (fam : String) :
    main_storage_call P fam
      = ([Event.query (Query.disk_usage (if fam = "windows" then "C:\\" else "/"))],
         P.disk_usage (if fam = "windows" then "C:\\" else "/")) := by
  by_cases h : fam = "windows" <;>
    simp [main_storage_call, get_system_storage_info, h]

/-- C5: with the scenario 1 provider (linux, 4 CPUs, usage rendered 50, 16 GB
total and 8 GB available memory, disk 100 GB total and 40 GB free) the
summary-mode stdout contains each quoted line of the scenario verbatim, the
storage figures indented by the four spaces of the storage block. -/
theorem scenario1_summary_exact :
    "Operating system:          linux" ∈ run_out (main [] scenario1)
    ∧ "System CPU count:          4" ∈ run_out (main [] scenario1)
    ∧ "CPU usage percentage:      50" ∈ run_out (main [] scenario1)
    ∧ "System total memory:       17179869184" ∈ run_out (main [] scenario1)
    ∧ "System available memory:   8589934592" ∈ run_out (main [] scenario1)
    ∧ ("    " ++ "Total:  107374182400") ∈ run_out (main [] scenario1)
    ∧ ("    " ++ "Free:   42949672960") ∈ run_out (main [] scenario1) := by
  decide

/-- C6: in list mode the stdout after the header is, for each process record
in provider enumeration order, one bordered block whose three inner lines are
the keys pid, name, username in that order, each separated from its value by
the six spaces print produces for `print(key, "    ", val)`. -/
theorem list_mode_blocks (argv : List String) (P : Provider) (args : Args)
    (os : String) (hp : parse_cmdline argv = some args) (hl : args.list = true)
    (ho : which_os P.hostFlags = some os) :
    run_out (main argv P) = header_lines
      ++ (P.process_iter.map (fun p =>
           ["----------------------",
            "pid      " ++ toString p.pid,
            "name      " ++ p.name,
            "username      " ++ p.username,
            "----------------------"])).flatten := by
  exact run_out_list_mode argv P args os hp hl ho

/-- C6 witness: scenario 2 with two concrete processes. -/
theorem list_mode_blocks_witness :
    run_out (main ["-l"] scenario2) = header_lines
      ++ (scenario2.process_iter.map (fun p =>
           ["----------------------",
            "pid      " ++ toString p.pid,
            "name      " ++ p.name,
            "username      " ++ p.username,
            "----------------------"])).flatten :=
  list_mode_blocks ["-l"] scenario2 ⟨true⟩ "linux" (by decide) rfl (by decide)

/-- C7: the collected snapshot passes the provider values through unchanged,
so under the provider invariants the CPU count is at least 1 and the total
memory is at least the available memory; the program adds no check of its
own. -/
theorem snapshot_invariants (P : Provider)
    (hc : 1 ≤ P.cpu_count)
    (hm : P.virtual_memory.available ≤ P.virtual_memory.total) :
    1 ≤ (get_num_cpus P).2
    ∧ (get_available_system_memory P).2 ≤ (get_total_system_memory P).2 :=
  ⟨hc, hm⟩

/-- C7 witness: the scenario 1 provider. -/
theorem snapshot_invariants_witness :
    1 ≤ (get_num_cpus scenario1).2
    ∧ (get_available_system_memory scenario1).2 ≤ (get_total_system_memory scenario1).2 :=
  snapshot_invariants scenario1 (by decide) (by decide)

/-- C8: parsing accepts exactly the argument lists whose every token is one of
the two accepted flag spellings (so no positionals and no other flags), and on
a rejected list the run consists of the usage message alone, exits with status
2, and prints nothing to stdout - no header, no summary, no process list. -/
theorem parse_only_list_flag (argv : List String) (P : Provider) :
    ((parse_cmdline argv).isSome ↔ ∀ tok ∈ argv, tok = "-l" ∨ tok = "--list")
    ∧ (parse_cmdline argv = none →
        (main argv P).events = [Event.usage]
        ∧ (main argv P).exit = 2
        ∧ run_out (main argv P) = []) := by
  constructor
  · induction argv with
    | nil => simp [parse_cmdline]
    | cons tok rest ih =>
      by_cases h : tok = "-l" ∨ tok = "--list"
      · simp [parse_cmdline, h, ih]
      · simp [parse_cmdline, h]
  · intro h
    simp [main, h, run_out, event_line]

/-- C8 witness: the unrecognized flag -x. -/
theorem parse_only_list_flag_witness :
    (main ["-x"] undetectedProvider).exit = 2
    ∧ run_out (main ["-x"] undetectedProvider) = [] :=
  ⟨((parse_only_list_flag ["-x"] undetectedProvider).2 (by decide)).2.1,
   ((parse_only_list_flag ["-x"] undetectedProvider).2 (by decide)).2.2⟩

/-- C9: in every run that passes parsing the first five events are the four
header prints followed by the OS-detection query, so the header precedes
detection; in particular on the not-detected path the run still exits with
status 1 with every header line on stdout. -/
theorem header_before_detection (argv : List String) (P : Provider) (args : Args)
    (hp : parse_cmdline argv = some args) :
    (main argv P).events.take 5 = print_output_header ++ [Event.query Query.os_check]
    ∧ (which_os P.hostFlags = none →
        (main argv P).exit = 1 ∧ ∀ l ∈ header_lines, l ∈ run_out (main argv P)) := by
  constructor
  · cases ho : which_os P.hostFlags with
    | none => simp [main, hp, ho, print_output_header]
    | some os =>
      cases hl : args.list <;>
        simp [main, hp, ho, hl, print_output_header, get_proc_list]
  · intro ho
    have hm : main argv P =
        { events := print_output_header ++ [Event.query Query.os_check,
            Event.out "ERROR! Operating system not detected!"],
          exit := 1 } := by
      simp only [main, hp, ho]
    rw [hm]
    exact ⟨rfl, by decide⟩

/-- C9 witness: the header's first line is on stdout even when detection
fails. -/
theorem header_before_detection_witness :
    "--- procr program output ---" ∈ run_out (main [] undetectedProvider) :=
  ((header_before_detection [] undetectedProvider ⟨false⟩ (by decide)).2 (by decide)).2
    "--- procr program output ---" (by decide)

/-- C10: in list mode the only provider queries are the OS check followed by
the process enumeration - no CPU, memory or disk query is performed - and when
detection fails the run still performs only the OS check and exits with
status 1. -/
theorem list_mode_frame (argv : List String) (P : Provider) (args : Args)
    (hp : parse_cmdline argv = some args) (hl : args.list = true) :
    (which_os P.hostFlags = none →
       run_queries (main argv P) = [Query.os_check] ∧ (main argv P).exit = 1)
    ∧ (∀ os, which_os P.hostFlags = some os →
       run_queries (main argv P) = [Query.os_check, Query.process_iter]
       ∧ (main argv P).exit = 0) := by
  constructor
  · intro ho
    have hm : main argv P =
        { events := print_output_header ++ [Event.query Query.os_check,
            Event.out "ERROR! Operating system not detected!"],
          exit := 1 } := by
      simp only [main, hp, ho]
    rw [hm]
    exact ⟨by decide, rfl⟩
  · intro os ho
    constructor
    · simp [main, hp, ho, hl, run_queries, List.filterMap_append, print_output_header,
        event_query, get_proc_list, print_proc_block, proc_items]
    · simp [main, hp, ho, hl]

/-- C10 witness: scenario 2 in list mode performs exactly the OS check and the
process enumeration. -/
theorem list_mode_frame_witness :
    run_queries (main ["-l"] scenario2) = [Query.os_check, Query.process_iter] :=
  ((list_mode_frame ["-l"] scenario2 ⟨true⟩ (by decide) rfl).2 "linux" (by decide)).1

end Procr
